import Mathlib

/-!
Verification development for the nexus-emotes addon (Rust).

Shallow embedding of the parts of the code relevant to the frozen claims:
chat-event decoding (both the legacy `src/chat_events.rs` path and the
newer `src/chat_events/mod.rs` path), the 7TV catalog download
(`src/seventv.rs`), the GIF decode/upload handoff (`src/giftex.rs`), and
the overlay engine (`process_message`, `render_fn`, `ActiveEmote::simulate`
in `src/lib.rs`).

Conventions:
* C strings coming over the FFI boundary are modelled as `Option (List Nat)`:
  `none` is a null pointer, `some bytes` the NUL-terminated byte string
  (bytes exclude the terminating NUL).  `CStr::to_str` is modelled by a
  faithful UTF-8 validator returning the same bytes on success.
* Rust panics (`expect`/`unwrap`) are modelled by `Option`: `none` means the
  code panicked.  Rust `Result` is modelled by `Except String`.
* `f32` arithmetic is modelled over `ℝ` (for the trigonometric speed law)
  and over `ℚ` (for the decidable removal bookkeeping).
* external host calls (`FileTimeToSystemTime`, D3D11 texture creation,
  HTTP fetch) are passed in as explicit function parameters.
-/

namespace NexusEmotes

/-! ### UTF-8 validation (model of `CStr::to_str` from the Rust std) -/

/-- Is `b` a UTF-8 continuation byte (`0x80..=0xBF`)? -/
def isCont (b : Nat) : Bool := 0x80 ≤ b && b ≤ 0xBF

/-- Faithful UTF-8 validity check over a byte list, following the
well-formedness table of RFC 3629 (as enforced by `str::from_utf8`). -/
def validUtf8 : List Nat → Bool
  | [] => true
  | b :: rest =>
    if b ≤ 0x7F then validUtf8 rest
    else if b < 0xC2 then false
    else if b ≤ 0xDF then
      match rest with
      | b1 :: rest2 => isCont b1 && validUtf8 rest2
      | [] => false
    else if b ≤ 0xEF then
      match rest with
      | b1 :: b2 :: rest3 =>
        (if b = 0xE0 then 0xA0 ≤ b1 && b1 ≤ 0xBF
         else if b = 0xED then 0x80 ≤ b1 && b1 ≤ 0x9F
         else isCont b1) && isCont b2 && validUtf8 rest3
      | _ => false
    else if b ≤ 0xF4 then
      match rest with
      | b1 :: b2 :: b3 :: rest4 =>
        (if b = 0xF0 then 0x90 ≤ b1 && b1 ≤ 0xBF
         else if b = 0xF4 then 0x80 ≤ b1 && b1 ≤ 0x8F
         else isCont b1) && isCont b2 && isCont b3 && validUtf8 rest4
      | _ => false
    else false

/-- Model of a possibly-null C string pointer: `none` is a null pointer. -/
abbrev RawStr := Option (List Nat)

/-- Model of `CStr::from_ptr(p).to_str()`: UTF-8 validation that returns the
byte content unchanged on success and fails on invalid UTF-8. -/
def cstr_to_str (bytes : List Nat) : Option (List Nat) :=
  if validUtf8 bytes then some bytes else none

/-! ### Legacy decode path: `src/chat_events.rs`

This file decodes the `EV_CHAT:Message` wire struct directly.  String
fields are read with `CStr::to_str().expect("Invalid UTF-8")` — the
`expect` is a panic, modelled by `Option` (with `none` = panic). -/

/-- Model of `RawPlayer` (two nullable C-string pointers). -/
structure RawPlayer where
  character : RawStr
  account : RawStr
deriving DecidableEq, Repr

/-- Model of the safe `Player` struct: both fields optional. -/
structure Player where
  character : Option (List Nat)
  account : Option (List Nat)
deriving DecidableEq, Repr

/-- Model of one field read in `From<RawPlayer> for Player`:
`p.field.as_ref().map(|c| CStr::from_ptr(c).to_str().expect("Invalid UTF-8").to_string())`.
Outer `none` = the `expect` panicked; `some none` = null pointer, field absent. -/
def decodeField (r : RawStr) : Option (Option (List Nat)) :=
  match r with
  | none => some none
  | some b => (cstr_to_str b).map some

/-- Model of `impl From<RawPlayer> for Player` in `src/chat_events.rs`.
`none` means the conversion panicked (invalid UTF-8 under `expect`). -/
def player_from_raw (p : RawPlayer) : Option Player := do
  let c ← decodeField p.character
  let a ← decodeField p.account
  pure ⟨c, a⟩

/-- Model of the legacy `MessageType` enum from `src/chat_events.rs`. -/
inductive MessageType where
  | Error | Map | Party | Squad | Team | Guild | Whisper | Local
deriving DecidableEq, Repr

/-- Model of `impl From<u8> for MessageType`: values 1..=7 map to the named
variants, anything else logs a warning and yields `Error` (the Rust
`match` on an integer scrutinee is an equality chain). -/
def MessageType.fromU8 (v : Nat) : MessageType :=
  if v = 1 then .Map
  else if v = 2 then .Party
  else if v = 3 then .Squad
  else if v = 4 then .Team
  else if v = 5 then .Guild
  else if v = 6 then .Whisper
  else if v = 7 then .Local
  else .Error

/-- Model of `GuildSource` (source kept as a raw player; flags kept as the
raw byte, the `GuildFlags` enum round-trips it unchanged). -/
structure GuildSource where
  source : RawPlayer
  index : Nat
  flags : Nat
deriving DecidableEq, Repr

/-- Model of `TeamSource` (raw player plus map id). -/
structure TeamSource where
  source : RawPlayer
  map_id : Nat
deriving DecidableEq, Repr

/-- Model of `WhisperSource` (raw player plus flags byte). -/
structure WhisperSource where
  interlocutor : RawPlayer
  flags : Nat
deriving DecidableEq, Repr

/-- Model of the decoded `SquadSource` (player decoded, flags byte kept). -/
structure SquadSource where
  source : Player
  flags : Nat
deriving DecidableEq, Repr

/-- Model of the C `MessageUnion`: every variant layout starts with a
`RawPlayer` prefix; the per-variant trailing fields are modelled side by
side instead of as overlapping memory. -/
structure MessageUnion where
  player_source : RawPlayer
  guild_index : Nat
  guild_flags : Nat
  team_map_id : Nat
  whisper_flags : Nat
  squad_flags : Nat
deriving DecidableEq, Repr

/-- Model of the legacy `MessageSource` enum from `src/chat_events.rs`.
Guild/Team/Whisper keep the raw (undecoded) player data, as in the source. -/
inductive MessageSourceOld where
  | Map (p : Player)
  | Party (p : Player)
  | PlayerV (p : Player)
  | Local (p : Player)
  | Guild (g : GuildSource)
  | Team (t : TeamSource)
  | Whisper (w : WhisperSource)
  | Squad (s : SquadSource)
  | Error
deriving DecidableEq, Repr

/-- Model of `MessageSource::from_raw` in `src/chat_events.rs`.  The outer
`Option` propagates panics from `Player::from` (invalid UTF-8). -/
def MessageSourceOld.from_raw (u : MessageUnion) (t : MessageType) : Option MessageSourceOld :=
  match t with
  | .Map => (player_from_raw u.player_source).map .Map
  | .Party => (player_from_raw u.player_source).map .Party
  | .Squad => (player_from_raw u.player_source).map (fun p => .Squad ⟨p, u.squad_flags⟩)
  | .Team => some (.Team ⟨u.player_source, u.team_map_id⟩)
  | .Guild => some (.Guild ⟨u.player_source, u.guild_index, u.guild_flags⟩)
  | .Whisper => some (.Whisper ⟨u.player_source, u.whisper_flags⟩)
  | .Local => (player_from_raw u.player_source).map .Local
  | .Error => some .Error

/-- Model of the legacy raw wire message (`RawMessage` in
`src/chat_events.rs`): content pointer, FILETIME (as a 64-bit number),
type discriminant byte, source union. -/
structure RawMessageOld where
  content : RawStr
  timestamp : Nat
  type : Nat
  source : MessageUnion
deriving DecidableEq, Repr

/-- Model of the decoded legacy `Message`.  Timestamps are abstract
instants modelled as naturals. -/
structure MessageOld where
  content : Option (List Nat)
  timestamp : Nat
  source : MessageSourceOld
deriving DecidableEq, Repr

/-- Model of `impl From<&RawMessage> for Message` in `src/chat_events.rs`.
`conv` models `timestamp_to_date_time` (the host `FileTimeToSystemTime`
call plus calendar construction, which lives outside src's pure code),
`now` models `UtcDateTime::now()`.  Conversion failure falls back to `now`
(after logging).  The outer `Option` propagates the `expect` panic on an
invalid-UTF-8 content string. -/
def message_from_raw_old (conv : Nat → Option Nat) (now : Nat)
    (msg : RawMessageOld) : Option MessageOld := do
  let content ← decodeField msg.content
  let source ← MessageSourceOld.from_raw msg.source (MessageType.fromU8 msg.type)
  pure ⟨content, (conv msg.timestamp).getD now, source⟩

/-! ### New decode path: `src/chat_events/mod.rs`

This path uses the bindgen-generated `raw` module.  `chat_events/raw.rs`
is not under src/, so its layout is modelled from the spec below; the
decode logic itself (`rawstr_to_string`, `union_to_generic`,
`MessageSource::from_raw`, `TryFrom<RawMessage>`) is embedded from
`src/chat_events/mod.rs`. -/

/-- Modelled from the spec: the numeric values of the bindgen
`MessageType_*` constants come from the missing `chat_events/raw.rs`; the
spec says a channel-type byte selects one of roughly 13 payload shapes.
The claims depend only on the recognized-versus-unknown distinction, so
the recognized values are modelled as the distinct numbers 0..13. -/
def MessageType_Error : Nat := 0

/-- Bindgen discriminant for guild messages (see `MessageType_Error`). -/
def MessageType_Guild : Nat := 1

/-- Bindgen discriminant for the guild message of the day. -/
def MessageType_GuildMotD : Nat := 2

/-- Bindgen discriminant for local chat. -/
def MessageType_Local : Nat := 3

/-- Bindgen discriminant for map chat. -/
def MessageType_Map : Nat := 4

/-- Bindgen discriminant for party chat. -/
def MessageType_Party : Nat := 5

/-- Bindgen discriminant for squad chat. -/
def MessageType_Squad : Nat := 6

/-- Bindgen discriminant for squad messages. -/
def MessageType_SquadMessage : Nat := 7

/-- Bindgen discriminant for squad broadcasts. -/
def MessageType_SquadBroadcast : Nat := 8

/-- Bindgen discriminant for PvP team chat. -/
def MessageType_TeamPvP : Nat := 9

/-- Bindgen discriminant for WvW team chat. -/
def MessageType_TeamWvW : Nat := 10

/-- Bindgen discriminant for whispers. -/
def MessageType_Whisper : Nat := 11

/-- Bindgen discriminant for built-in emote actions. -/
def MessageType_Emote : Nat := 12

/-- Bindgen discriminant for custom emote actions. -/
def MessageType_EmoteCustom : Nat := 13

/-- Modelled from the spec: the bindgen union `Message__bindgen_ty_1`
(missing `chat_events/raw.rs`).  Most payload shapes share a common prefix
(account identifier, two nullable strings, content string) plus a
type-specific trailing field; the emote payload shape is incompatible with
the prefix.  Each access path of the C union is modelled as its own field
(the GUID `Account` is modelled as a natural number). -/
structure RawUnionNew where
  account : Nat
  characterName : RawStr
  accountName : RawStr
  content : RawStr
  guildIndex : Nat
  mapId : Nat
  squadMessage : RawStr
  motdContent : RawStr
  emoteCharacterName : RawStr
  emoteAction : Nat
  emoteCustomAction : RawStr
deriving DecidableEq, Repr

/-- Model of `GenericMessage` from `src/chat_events/mod.rs`: note that
`character_name` and `content` are plain strings (a null pointer decodes
to the default empty string), only `account_name` stays optional. -/
structure GenericMessage where
  account : Nat
  character_name : List Nat
  account_name : Option (List Nat)
  content : List Nat
deriving DecidableEq, Repr

/-- Model of the `GameEmote` enum from `src/chat_events/mod.rs`.  The
numeric values of the bindgen `EmoteType_*` constants are modelled from
the spec as 0..7 in declaration order. -/
inductive GameEmote where
  | Bless | Beckon | Dance | Sit | Yes | No | Cower | Laugh
  | Other (n : Nat)
deriving DecidableEq, Repr

/-- Model of the `ActionTaken` match in the `MessageType_Emote` arm of
`MessageSource::from_raw`. -/
def GameEmote.fromRaw (n : Nat) : GameEmote :=
  match n with
  | 0 => .Bless
  | 1 => .Beckon
  | 2 => .Dance
  | 3 => .Sit
  | 4 => .Yes
  | 5 => .No
  | 6 => .Cower
  | 7 => .Laugh
  | n => .Other n

/-- Model of `rawstr_to_string` from `src/chat_events/mod.rs`: a null
pointer is `Ok(None)`, invalid UTF-8 is a recoverable `Err`, otherwise the
decoded string is returned. -/
def rawstr_to_string (raw : RawStr) : Except String (Option (List Nat)) :=
  match raw with
  | none => .ok none
  | some b =>
    match cstr_to_str b with
    | some s => .ok (some s)
    | none => .error ("invalid utf-8")

/-- Model of `union_to_generic` from `src/chat_events/mod.rs`: reads the
common-prefix fields through the `Local` union variant;
`character_name` and `content` apply `unwrap_or_default()` (null becomes
the empty string), `account_name` stays optional. -/
def union_to_generic (u : RawUnionNew) : Except String GenericMessage := do
  let character_name := (← rawstr_to_string u.characterName).getD []
  let account_name ← rawstr_to_string u.accountName
  let content := (← rawstr_to_string u.content).getD []
  pure ⟨u.account, character_name, account_name, content⟩

/-- Model of the new `MessageSource` enum from `src/chat_events/mod.rs`.
There is no `Error` variant on this path. -/
inductive MessageSourceNew where
  | Guild (message : GenericMessage) (guild_index : Nat)
  | GuildMotD (content : List Nat) (guild_index : Nat)
  | Local (m : GenericMessage)
  | Map (m : GenericMessage)
  | Party (m : GenericMessage)
  | Squad (m : GenericMessage)
  | SquadMessage (content : List Nat)
  | TeamPvP (m : GenericMessage)
  | TeamWvW (message : GenericMessage) (map_id : Nat)
  | Whisper (m : GenericMessage)
  | Emote (character_name : Option (List Nat)) (action_taken : GameEmote)
  | EmoteCustom (character_name : Option (List Nat)) (action_taken : List Nat)
deriving DecidableEq, Repr

/-- Model of the new raw wire message (`raw::Message`): type discriminant,
FILETIME (Low/High merged into one natural), payload union. -/
structure RawMessageNew where
  type : Nat
  dateTime : Nat
  u : RawUnionNew
deriving DecidableEq, Repr

/-- Model of `MessageSource::from_raw` from `src/chat_events/mod.rs`: the
`MessageType_Error` discriminant and any unrecognized discriminant return
a recoverable error (there is no fallback variant on this path). -/
def MessageSourceNew.from_raw (raw : RawMessageNew) : Except String MessageSourceNew :=
  if raw.type = MessageType_Error then .error ("Error message type")
  else if raw.type = MessageType_Guild then do
    let message ← union_to_generic raw.u
    pure (.Guild message raw.u.guildIndex)
  else if raw.type = MessageType_GuildMotD then do
    let content := (← rawstr_to_string raw.u.motdContent).getD []
    pure (.GuildMotD content raw.u.guildIndex)
  else if raw.type = MessageType_Local then (union_to_generic raw.u).map .Local
  else if raw.type = MessageType_Map then (union_to_generic raw.u).map .Map
  else if raw.type = MessageType_Party then (union_to_generic raw.u).map .Party
  else if raw.type = MessageType_Squad then (union_to_generic raw.u).map .Squad
  else if raw.type = MessageType_SquadMessage then do
    let content := (← rawstr_to_string raw.u.squadMessage).getD []
    pure (.SquadMessage content)
  else if raw.type = MessageType_SquadBroadcast then do
    let content := (← rawstr_to_string raw.u.squadMessage).getD []
    pure (.SquadMessage content)
  else if raw.type = MessageType_TeamPvP then (union_to_generic raw.u).map .TeamPvP
  else if raw.type = MessageType_TeamWvW then do
    let message ← union_to_generic raw.u
    pure (.TeamWvW message raw.u.mapId)
  else if raw.type = MessageType_Whisper then (union_to_generic raw.u).map .Whisper
  else if raw.type = MessageType_Emote then do
    let character_name ← rawstr_to_string raw.u.emoteCharacterName
    pure (.Emote character_name (GameEmote.fromRaw raw.u.emoteAction))
  else if raw.type = MessageType_EmoteCustom then do
    let character_name ← rawstr_to_string raw.u.emoteCharacterName
    let action_taken := (← rawstr_to_string raw.u.emoteCustomAction).getD []
    pure (.EmoteCustom character_name action_taken)
  else .error ("Unknown message type")

/-- Model of the decoded new-path `Message` from `src/chat_events/mod.rs`. -/
structure MessageNew where
  timestamp : Nat
  source : MessageSourceNew
deriving DecidableEq, Repr

/-- Model of `impl TryFrom<RawMessage> for Message` in
`src/chat_events/mod.rs`: a timestamp-conversion failure or a source
decode failure fails the decode of the whole event (no fallback to now). -/
def Message.try_from_new (conv : Nat → Option Nat) (raw : RawMessageNew) :
    Except String MessageNew := do
  let timestamp ←
    match conv raw.dateTime with
    | some t => Except.ok t
    | none => Except.error ("timestamp conversion failed")
  let source ← MessageSourceNew.from_raw raw
  pure ⟨timestamp, source⟩

/-! ### GIF decode to GPU upload handoff: `src/giftex.rs` and `update_gifs`

The D3D11 device call `create_shader_resource_view` is a host GPU call;
it is passed in as an explicit parameter `csrv` mapping (pixel data,
width, height) to either a shader-resource-view handle (modelled as a
natural) or an error. -/

/-- Model of `RawGif`: decoded-but-unuploaded frames, each RGBA pixel
buffer paired with its display delay in ms (an `f32`, modelled as `ℚ`). -/
structure RawGif where
  frames : List (List Nat × ℚ)
  width : Nat
  height : Nat
deriving DecidableEq, Repr

/-- Model of `GifFrame`: one uploaded frame (shader-resource-view handle
plus display delay). -/
structure GifFrame where
  id : Nat
  delay : ℚ
deriving DecidableEq, Repr

/-- Model of the uploaded `Gif`. -/
structure Gif where
  frames : List GifFrame
  width : ℚ
  height : ℚ
deriving DecidableEq, Repr

/-- Model of `Iterator::map(..).collect::<Result<Vec<_>, _>>()`: apply a
fallible function to each element in order, short-circuiting on the first
error. -/
def collectResult (f : α → Except String β) : List α → Except String (List β)
  | [] => .ok []
  | a :: as =>
    match f a with
    | .error e => .error e
    | .ok b =>
      match collectResult f as with
      | .error e => .error e
      | .ok bs => .ok (b :: bs)

/-- Model of `upload_gif_to_gpu`: uploads the frames in order, collecting
into a `Result` — the first frame whose texture/view creation fails aborts
the remaining frames of this gif. -/
def upload_gif_to_gpu (csrv : List Nat → Nat → Nat → Except String Nat)
    (gif : RawGif) : Except String Gif := do
  let frames ← collectResult (fun fd => do
    let srv ← csrv fd.1 gif.width gif.height
    pure (⟨srv, fd.2⟩ : GifFrame)) gif.frames
  pure ⟨frames, (gif.width : ℚ), (gif.height : ℚ)⟩

/-- Model of `process_queue` from `src/giftex.rs`: drains the queue (the
argument is the drained batch) and maps `upload_gif_to_gpu` over it,
collecting into a `Result` — the first failing item aborts the whole
batch, discarding earlier successes. -/
def process_queue (csrv : List Nat → Nat → Nat → Except String Nat)
    (queue : List (String × RawGif)) : Except String (List (String × Gif)) :=
  collectResult (fun item => do
    let gif ← upload_gif_to_gpu csrv item.2
    pure (item.1, gif)) queue

/-- Model of `loaded.iter_mut().find(|(l, _)| l == &identifier)` followed
by `e.1 = Some(gif)`: set the first entry with the given key. -/
def updateFirst (ld : List (String × Option Gif)) (ident : String) (g : Gif) :
    List (String × Option Gif) :=
  match ld with
  | [] => []
  | (k, v) :: rest =>
    if k = ident then (k, some g) :: rest else (k, v) :: updateFirst rest ident g

/-- Model of `update_gifs` from `src/lib.rs`: on a `process_queue` error
it logs and returns with `LOADED_EMOTES` untouched (the queue was already
drained); on success every returned gif is stored into the matching
loaded-emotes entry. -/
def update_gifs (csrv : List Nat → Nat → Nat → Except String Nat)
    (loaded : List (String × Option Gif)) (queue : List (String × RawGif)) :
    List (String × Option Gif) :=
  match process_queue csrv queue with
  | .error _ => loaded
  | .ok gifs => gifs.foldl (fun ld ig => updateFirst ld ig.1 ig.2) loaded

/-! ### 7TV catalog download: `src/seventv.rs`

The HTTP fetch plus JSON parse (`get_emotes`) is network I/O; it is passed
in as an explicit parameter `fetch` from set id to either an `EmoteSet`
or an error. -/

/-- Model of a 7TV `Emote` catalog entry (the fields the claims touch). -/
structure Emote7 where
  id : String
  name : String
  flags : Nat
deriving DecidableEq, Repr, Inhabited

/-- Model of a 7TV `EmoteSet`. -/
structure EmoteSet where
  id : String
  name : String
  emotes : List Emote7
deriving DecidableEq, Repr, Inhabited

/-- Model of `Result::is_ok`. -/
def exceptIsOk : Except String α → Bool
  | .ok _ => true
  | .error _ => false

/-- Model of `Result::unwrap` on an `Except` known to be `ok` (used on the
`ok` half of a partition; the `default` is never reached there). -/
def exceptUnwrap [Inhabited α] : Except String α → α
  | .ok a => a
  | .error _ => default

/-- Model of `download_emote_sets` from `src/seventv.rs`: build the id
iterator (appending the implicit `"global"` id when `use_global` is set),
fetch each id, partition into successes and failures, log the failures,
and return the unwrapped successes. -/
def download_emote_sets (fetch : String → Except String EmoteSet)
    (emote_set_ids : List String) (use_global : Bool) : List EmoteSet :=
  let it := emote_set_ids ++ (if use_global then ["global"] else [])
  let results := it.map fetch
  let parts := results.partition exceptIsOk
  parts.1.map exceptUnwrap

/-! ### Overlay engine message processing: `process_message` in `src/lib.rs`

The catalog is the flattening of `EMOTE_SETS` (`emote_sets.iter().flat_map(|e| e.emotes.iter())`).
The texture-load side effects of the token loop (pushing into
`LOADED_EMOTES`, URL parsing, scheduling worker jobs or
`get_texture_or_create_from_url`) neither read nor write `active_emotes`
or `last_was_emote`, so they are not part of this model of the
instance-list state machine. -/

/-- Model of a catalog entry as seen by the token loop: the matcher name
and the zero-width flag.  `Emote::zero_width()` lives in the `util`
module, which is not under src/; modelled from the spec as a boolean
attribute of the catalog entry. -/
structure CatalogEmote where
  name : String
  zeroWidth : Bool
deriving DecidableEq, Repr

/-- Model of an `ActiveEmote` as created by `process_message`: the pair of
layers, by identifier.  New instances start with `position = None`,
`start = None` and a random `start_offset`; those fields are modelled in
the render/simulation sections and do not participate in the token loop. -/
structure ActiveEmoteInst where
  base : String
  overlay : Option String
deriving DecidableEq, Repr

/-- Model of `active_emotes.last_mut().expect("Last Active Emote to Exist")`
followed by `last.layers.1 = Some(..)`: `none` models the panic on an
empty list. -/
def attachOverlay (l : List ActiveEmoteInst) (ident : String) :
    Option (List ActiveEmoteInst) :=
  match l.getLast? with
  | none => none
  | some last => some (l.dropLast ++ [{ last with overlay := some ident }])

/-- Model of the inner catalog loop of `process_message` for one token
`word`: for each catalog entry whose name equals the token, either attach
a zero-width overlay onto the last active instance (when the previous
token was a match and the entry is zero-width) or push a new instance and
record `is_emote = true`.  State is `(active_emotes, is_emote)`;
`lastWasEmote` is fixed for the whole token, as in the source. -/
def catGo (lastWasEmote : Bool) (word : String) :
    List CatalogEmote → List ActiveEmoteInst × Bool →
    Option (List ActiveEmoteInst × Bool)
  | [], acc => some acc
  | e :: es, acc =>
    if e.name = word then
      if lastWasEmote && e.zeroWidth then
        match attachOverlay acc.1 ("EMOTE_" ++ word) with
        | none => none
        | some l => catGo lastWasEmote word es (l, acc.2)
      else catGo lastWasEmote word es (acc.1 ++ [⟨"EMOTE_" ++ word, none⟩], true)
    else catGo lastWasEmote word es acc

/-- Model of processing one whitespace token: run the catalog loop with
`is_emote` starting `false`; the returned boolean becomes the next token's
`last_was_emote`. -/
def processWord (catalog : List CatalogEmote) (lastWasEmote : Bool)
    (active : List ActiveEmoteInst) (word : String) :
    Option (List ActiveEmoteInst × Bool) :=
  catGo lastWasEmote word catalog (active, false)

/-- Model of the outer token loop of `process_message`: fold the tokens,
threading `(active_emotes, last_was_emote)`. -/
def wordsGo (catalog : List CatalogEmote) :
    List String → List ActiveEmoteInst × Bool → Option (List ActiveEmoteInst × Bool)
  | [], acc => some acc
  | w :: ws, acc =>
    match processWord catalog acc.2 acc.1 w with
    | none => none
    | some acc' => wordsGo catalog ws acc'

/-- Model of `process_message` in `src/lib.rs` restricted to the active
instance list: tokens are the whitespace-split words of the message
content, `last_was_emote` starts `false`, and the `ACTIVE_EMOTES` lock is
held for the whole call (so `active` is threaded sequentially).  `none`
models a panic inside the loop. -/
def process_message (catalog : List CatalogEmote)
    (active : List ActiveEmoteInst) (words : List String) :
    Option (List ActiveEmoteInst) :=
  (wordsGo catalog words (active, false)).map Prod.fst

/-! ### Per-instance render tick and removal: `render_fn` in `src/lib.rs`

For one active instance, each render tick does: resolve textures via
`get_textures` (which can fail while a gif is still loading — then the
instance is skipped this tick), lazily set `position` (y starts at the
surface height) and `start`, run `simulate` (y decreases by
`speed * elapsed`; the sway added by `get_position` affects only x), and
remove the instance iff `pos.y + height < 0`.

The model reduces a tick to the y-axis data the removal test reads: a
`TickInput` carries whether `get_textures` returned `Some`, the surface
height used for lazy placement, the sprite height computed from the
textures this tick (max of base and overlay), and the displacement
`speed * elapsed` computed by `simulate` (its sign is the subject of the
simulation section). -/

/-- Environment one `render_fn` tick presents to one instance. -/
structure TickInput where
  texOk : Bool
  surfaceH : ℚ
  height : ℚ
  dy : ℚ
deriving DecidableEq, Repr

/-- Vertical state of one instance: `none` while unpositioned. -/
structure InstState where
  y : Option ℚ
deriving DecidableEq, Repr

/-- Model of one `render_fn` iteration for one instance: when
`get_textures` fails the instance is skipped (`continue`); otherwise the
position is lazily initialized to the bottom of the surface, `simulate`
moves it by `dy`, and the instance is marked for removal iff
`y + height < 0`. -/
def renderTickInst (s : InstState) (inp : TickInput) : InstState × Bool :=
  if inp.texOk then
    let y1 := (s.y.getD inp.surfaceH) - inp.dy
    (⟨some y1⟩, decide (y1 + inp.height < 0))
  else (s, false)

/-- Index of the tick on which the instance is swap-removed from the
active set (`none` if it survives the whole input trace).  Removal ends
the instance's life, so it can fire at most once. -/
def removalIndex (s : InstState) : List TickInput → Option Nat
  | [] => none
  | inp :: rest =>
    let step := renderTickInst s inp
    if step.2 then some 0 else (removalIndex step.1 rest).map (· + 1)

/-- Trace, tick by tick, of the removal predicate `position.y + height < 0`
as evaluated by `render_fn` (on ticks where `get_textures` fails, no
height is computed and the predicate is not evaluated, recorded as
`false`). -/
def condTrace (s : InstState) : List TickInput → List Bool
  | [] => []
  | inp :: rest =>
    let step := renderTickInst s inp
    step.2 :: condTrace step.1 rest

/-- Index of the first `true` in a boolean trace. -/
def firstTrueIdx : List Bool → Option Nat
  | [] => none
  | b :: rest => if b then some 0 else (firstTrueIdx rest).map (· + 1)

/-! ### Position simulation: `ActiveEmote::simulate` in `src/lib.rs`

The `f32` arithmetic is modelled over `ℝ` with `Real.sin`.  `simulate`
reads `self.start.unwrap().elapsed().as_millis()`; `render_fn` sets
`start` before calling `simulate`, so the model carries the elapsed
milliseconds since `start` directly. -/

/-- Model of the `SPEED` constant. -/
noncomputable def SPEED : ℝ := 0.5

/-- Real-valued model of an `ActiveEmote` as read by `simulate`. -/
structure ActiveEmoteR where
  position : Option (ℝ × ℝ)
  start_offset : ℝ
  startElapsedMs : ℝ

/-- Model of the per-step speed computed by `ActiveEmote::simulate`:
`SPEED + (start_offset + elapsed_since_start / 1000).sin() * 0.1`. -/
noncomputable def simSpeed (e : ActiveEmoteR) : ℝ :=
  SPEED + Real.sin (e.start_offset + e.startElapsedMs / 1000) * 0.1

/-- Model of `ActiveEmote::simulate`: when positioned, the y coordinate
moves down by `speed * elapsed` (the x sway is applied by `get_position`
at draw time, not here). -/
noncomputable def ActiveEmoteR.simulate (e : ActiveEmoteR) (elapsed : ℝ) : ActiveEmoteR :=
  match e.position with
  | some p => { e with position := some (p.1, p.2 - simSpeed e * elapsed) }
  | none => e

/-! ## Helper lemmas: token loop of `process_message` -/

/-- On a non-empty active list the attach never panics and the resulting
list replaces the last instance's overlay. -/
theorem attachOverlay_of_ne_nil (l : List ActiveEmoteInst) (i : String) (h : l ≠ []) :
    attachOverlay l i =
      some (l.dropLast ++ [{ l.getLast h with overlay := some i }]) := by
  unfold attachOverlay
  rw [List.getLast?_eq_getLast l h]

/-- Loop invariant of the inner catalog loop: if `lastWasEmote` implies the
active list is non-empty (and likewise for the running `is_emote` flag),
the loop cannot panic and the invariant is preserved. -/
theorem catGo_isSome (w : String) (lwe : Bool) (cat : List CatalogEmote) :
    ∀ acc : List ActiveEmoteInst × Bool,
      (lwe = true → acc.1 ≠ []) → (acc.2 = true → acc.1 ≠ []) →
      ∃ res, catGo lwe w cat acc = some res ∧
        (lwe = true → res.1 ≠ []) ∧ (res.2 = true → res.1 ≠ []) := by
  induction cat with
  | nil => exact fun acc h1 h2 => ⟨acc, rfl, h1, h2⟩
  | cons e es ih =>
    intro acc h1 h2
    by_cases he : e.name = w
    · by_cases hz : (lwe && e.zeroWidth) = true
      · have hlwe : lwe = true := ((Bool.and_eq_true _ _).mp hz).1
        have hne : acc.1 ≠ [] := h1 hlwe
        obtain ⟨res, hr, hp1, hp2⟩ :=
          ih (acc.1.dropLast ++ [{ acc.1.getLast hne with overlay := some ("EMOTE_" ++ w) }],
              acc.2) (fun _ => by simp) (fun _ => by simp)
        refine ⟨res, ?_, hp1, hp2⟩
        simp only [catGo, he, if_true, hz, attachOverlay_of_ne_nil acc.1 _ hne, if_pos]
        exact hr
      · obtain ⟨res, hr, hp1, hp2⟩ :=
          ih (acc.1 ++ [⟨"EMOTE_" ++ w, none⟩], true) (fun _ => by simp) (fun _ => by simp)
        refine ⟨res, ?_, hp1, hp2⟩
        simp only [catGo, he, if_true, hz, if_pos, Bool.false_eq_true, if_false]
        exact hr
    · obtain ⟨res, hr, hp1, hp2⟩ := ih acc h1 h2
      refine ⟨res, ?_, hp1, hp2⟩
      simp only [catGo, he, if_false]
      exact hr

/-- Processing one token never panics when `lastWasEmote` implies a
non-empty active list, and the returned `is_emote` flag again implies a
non-empty active list. -/
theorem processWord_isSome (catalog : List CatalogEmote) (lwe : Bool)
    (active : List ActiveEmoteInst) (w : String) (h : lwe = true → active ≠ []) :
    ∃ res, processWord catalog lwe active w = some res ∧
      (res.2 = true → res.1 ≠ []) := by
  obtain ⟨res, hr, _, hp2⟩ :=
    catGo_isSome w lwe catalog (active, false) h (by simp)
  exact ⟨res, hr, hp2⟩

/-- The outer token loop never panics as long as the running
`last_was_emote` flag implies a non-empty active list. -/
theorem wordsGo_isSome (catalog : List CatalogEmote) (ws : List String) :
    ∀ acc : List ActiveEmoteInst × Bool, (acc.2 = true → acc.1 ≠ []) →
      (wordsGo catalog ws acc).isSome := by
  induction ws with
  | nil => intro acc _; simp [wordsGo]
  | cons w ws ih =>
    intro acc h
    obtain ⟨res, hr, hp⟩ := processWord_isSome catalog acc.2 acc.1 w h
    simp only [wordsGo, hr]
    exact ih res hp

/-- CLAIM C10 — in `process_message`, whenever the zero-width attach
branch executes, the active-emote list is non-empty: `last_was_emote` can
only be true after a non-zero-width match pushed an instance earlier in
the same call (the `ACTIVE_EMOTES` lock is held throughout), so the
`expect` on `active_emotes.last_mut()` never panics.  In the model a panic
is `none`, so `process_message` always returns `some`. -/
theorem c10_attach_branch_never_panics (catalog : List CatalogEmote)
    (active : List ActiveEmoteInst) (words : List String) :
    (process_message catalog active words).isSome := by
  unfold process_message
  have h := wordsGo_isSome catalog words (active, false) (by simp)
  obtain ⟨res, hr⟩ := Option.isSome_iff_exists.mp h
  simp [hr]

/-- If no catalog entry matches the token, the token contributes nothing
and `is_emote` is left untouched. -/
theorem catGo_no_match (w : String) (lwe : Bool) (cat : List CatalogEmote) :
    ∀ acc, (∀ e ∈ cat, e.name ≠ w) → catGo lwe w cat acc = some acc := by
  induction cat with
  | nil => intro acc _; rfl
  | cons e es ih =>
    intro acc h
    have he : ¬(e.name = w) := h e (by simp)
    simp only [catGo, he, if_false]
    exact ih acc (fun e' he' => h e' (by simp [he']))

/-- When the previous token did not match (`last_was_emote = false`) the
attach branch is unreachable: every catalog entry matching the token —
zero-width or not — pushes a fresh instance with no overlay, and
`is_emote` records whether any entry matched. -/
theorem catGo_not_lastWasEmote (w : String) (cat : List CatalogEmote) :
    ∀ acc, catGo false w cat acc =
      some (acc.1 ++ (cat.filter (fun e => e.name = w)).map
              (fun _ => ⟨"EMOTE_" ++ w, none⟩),
            acc.2 || cat.any (fun e => e.name = w)) := by
  induction cat with
  | nil => intro acc; simp [catGo]
  | cons e es ih =>
    intro acc
    by_cases he : e.name = w
    · simp only [catGo, he, if_true, Bool.false_and, Bool.false_eq_true, if_false]
      rw [ih]
      simp [he, List.filter_cons, List.any_cons]
    · simp only [catGo, he, if_false]
      rw [ih]
      simp [he, List.filter_cons, List.any_cons]

/-- Splitting the outer token loop over an appended token list. -/
theorem wordsGo_append (catalog : List CatalogEmote) (l1 l2 : List String) :
    ∀ acc, wordsGo catalog (l1 ++ l2) acc =
      (wordsGo catalog l1 acc).bind (fun acc' => wordsGo catalog l2 acc') := by
  induction l1 with
  | nil => intro acc; simp [wordsGo]
  | cons w ws ih =>
    intro acc
    simp only [List.cons_append, wordsGo]
    cases processWord catalog acc.2 acc.1 w with
    | none => simp
    | some acc' => simpa using ih acc'

/-- CLAIM C1 (counterexample) — catalog `A` (not zero-width) and `Z`
(zero-width); message `"A X Z"` where `X` matches nothing.  The claim says
the zero-width `Z` attaches onto `A`'s instance and creates no instance of
its own; the code instead pushes a brand-new instance for `Z` and leaves
`A`'s overlay slot empty, because `last_was_emote` is false after the
unmatched `X`. -/
theorem c1_counterexample :
    process_message [⟨"A", false⟩, ⟨"Z", true⟩] [] ["A", "X", "Z"] =
        some [⟨"EMOTE_A", none⟩, ⟨"EMOTE_Z", none⟩] ∧
      process_message [⟨"A", false⟩, ⟨"Z", true⟩] [] ["A", "X", "Z"] ≠
        some [⟨"EMOTE_A", some ("EMOTE_Z")⟩] := by
  constructor
  · decide
  · decide

/-- CLAIM C1 (amended) — when the token immediately before a zero-width
match did not match anything, the zero-width token does not attach to any
earlier instance: every instance present before the token is left
untouched, and each catalog entry matching the zero-width token pushes a
new independent instance with an empty overlay slot.  (Attachment happens
only when the immediately preceding token itself matched.) -/
theorem c1_amended_zero_width_after_unmatched_spawns_new
    (catalog : List CatalogEmote) (active mid : List ActiveEmoteInst)
    (ws1 : List String) (x z : String) (b : Bool)
    (hx : ∀ e ∈ catalog, e.name ≠ x)
    (hmid : wordsGo catalog ws1 (active, false) = some (mid, b)) :
    process_message catalog active (ws1 ++ [x, z]) =
      some (mid ++ (catalog.filter (fun e => e.name = z)).map
              (fun _ => ⟨"EMOTE_" ++ z, none⟩)) := by
  unfold process_message
  rw [wordsGo_append, hmid]
  simp only [Option.some_bind, wordsGo, processWord]
  rw [catGo_no_match x b catalog (mid, false) hx]
  simp [catGo_not_lastWasEmote, wordsGo]

/-- Witness for C1 (amended): catalog `A` (not zero-width), `Z`
(zero-width); message `"A X Z"` — the result is `A`'s untouched instance
followed by a fresh instance for `Z`. -/
theorem c1_amended_witness :
    (∀ e ∈ ([⟨"A", false⟩, ⟨"Z", true⟩] : List CatalogEmote), e.name ≠ "X") ∧
    process_message [⟨"A", false⟩, ⟨"Z", true⟩] [] (["A"] ++ ["X", "Z"]) =
      some ([⟨"EMOTE_A", none⟩] ++
        (([⟨"A", false⟩, ⟨"Z", true⟩] : List CatalogEmote).filter
          (fun e => e.name = "Z")).map (fun _ => ⟨"EMOTE_" ++ "Z", none⟩)) :=
  ⟨by decide,
   c1_amended_zero_width_after_unmatched_spawns_new
    [⟨"A", false⟩, ⟨"Z", true⟩] [] [⟨"EMOTE_A", none⟩] ["A"] "X" "Z" true
    (by decide) (by decide)⟩

/-! ## Removal timing and descent -/

/-- CLAIM C7 — an active instance is swap-removed on exactly the first
render tick on which the evaluated removal predicate
`position.y + sprite height < 0` holds, and on no earlier tick; the
removal index is a single option, so removal fires at most once per
instance.  `condTrace` records, tick by tick, the predicate exactly as
`render_fn` evaluates it (post-`simulate`, `false` on ticks where
`get_textures` is not ready and the predicate is never evaluated). -/
theorem c7_removed_on_first_violation (s : InstState) (inps : List TickInput) :
    removalIndex s inps = firstTrueIdx (condTrace s inps) := by
  induction inps generalizing s with
  | nil => rfl
  | cons inp rest ih =>
    simp only [removalIndex, condTrace, firstTrueIdx]
    cases h : (renderTickInst s inp).2 with
    | true => simp
    | false => simp [ih]

/-- CLAIM C8 — for a positioned instance and a step with positive elapsed
time, the per-step speed `0.5 + 0.1 * sin(start_offset + t/1000)` is
strictly positive (it lies in `[0.4, 0.6]`), so `simulate` strictly
decreases the stored vertical coordinate: every position update moves the
sprite monotonically toward and past the top edge. -/
theorem c8_simulate_strictly_decreases (e : ActiveEmoteR) (x y elapsed : ℝ)
    (hpos : e.position = some (x, y)) (helapsed : 0 < elapsed) :
    0 < simSpeed e ∧
      (e.simulate elapsed).position = some (x, y - simSpeed e * elapsed) ∧
      y - simSpeed e * elapsed < y := by
  have hsin : -1 ≤ Real.sin (e.start_offset + e.startElapsedMs / 1000) :=
    Real.neg_one_le_sin _
  have hspeed : 0 < simSpeed e := by
    unfold simSpeed SPEED
    nlinarith
  refine ⟨hspeed, ?_, ?_⟩
  · unfold ActiveEmoteR.simulate
    rw [hpos]
  · have := mul_pos hspeed helapsed
    linarith

/-- Witness for C8 at a concrete instance (phase 0, elapsed 1 ms): the
speed is positive and y drops strictly. -/
theorem c8_witness :
    (0 : ℝ) < 1 ∧
      (0 < simSpeed ⟨some (0, 0), 0, 0⟩ ∧
        ((⟨some (0, 0), 0, 0⟩ : ActiveEmoteR).simulate 1).position =
          some (0, 0 - simSpeed ⟨some (0, 0), 0, 0⟩ * 1) ∧
        0 - simSpeed ⟨some (0, 0), 0, 0⟩ * 1 < 0) :=
  ⟨by norm_num,
   c8_simulate_strictly_decreases ⟨some (0, 0), 0, 0⟩ 0 0 1 rfl (by norm_num)⟩

/-! ## GIF upload batch and catalog download -/

/-- If `collectResult` succeeds, every element of the list succeeded; so a
single failing element forces the whole collect to fail. -/
theorem collectResult_ok_all (f : α → Except String β) :
    ∀ l : List α, exceptIsOk (collectResult f l) = true →
      ∀ a ∈ l, exceptIsOk (f a) = true := by
  intro l
  induction l with
  | nil => intro _ a ha; exact absurd ha (List.not_mem_nil a)
  | cons x xs ih =>
    intro h a ha
    unfold collectResult at h
    cases hx : f x with
    | error e => rw [hx] at h; exact absurd h (by simp [exceptIsOk])
    | ok b =>
      rw [hx] at h
      cases hxs : collectResult f xs with
      | error e => rw [hxs] at h; exact absurd h (by simp [exceptIsOk])
      | ok bs =>
        rcases List.mem_cons.mp ha with rfl | hmem
        · simp [hx, exceptIsOk]
        · exact ih (by rw [hxs]; rfl) a hmem

/-- CLAIM C2 (counterexample) — a two-item drained batch where the first
item's texture creation fails and the second would succeed: `process_queue`
returns an error (the collect short-circuits), `update_gifs` logs and
returns, and the second item is not uploaded — its loaded-emotes entry
stays `none`.  The claim said the failed item is skipped and every other
item is still processed. -/
theorem c2_counterexample :
    update_gifs (fun d _ _ => if d = [0] then .error ("fail") else .ok 1)
        [("a", none), ("b", none)]
        [("a", ⟨[([0], 1)], 1, 1⟩), ("b", ⟨[([1], 1)], 1, 1⟩)] =
      [("a", none), ("b", none)] ∧
    exceptIsOk (process_queue (fun d _ _ => if d = [0] then .error ("fail") else .ok 1)
        [("a", ⟨[([0], 1)], 1, 1⟩), ("b", ⟨[([1], 1)], 1, 1⟩)]) = false ∧
    exceptIsOk (upload_gif_to_gpu (fun d _ _ => if d = [0] then .error ("fail") else .ok 1)
        ⟨[([1], 1)], 1, 1⟩) = true := by
  refine ⟨by decide, by decide, by decide⟩

/-- CLAIM C2 (amended) — a GPU texture/view creation failure for any one
queued item aborts the whole drained batch: `process_queue` collects into
a `Result`, so one failing item makes it return an error, and `update_gifs`
then logs and returns with no loaded-emotes entry updated — the other
drained items (already removed from the queue) are discarded rather than
uploaded. -/
theorem c2_amended_one_failure_aborts_batch
    (csrv : List Nat → Nat → Nat → Except String Nat)
    (loaded : List (String × Option Gif)) (queue : List (String × RawGif))
    (ident : String) (raw : RawGif) (hmem : (ident, raw) ∈ queue)
    (hfail : exceptIsOk (upload_gif_to_gpu csrv raw) = false) :
    exceptIsOk (process_queue csrv queue) = false ∧
      update_gifs csrv loaded queue = loaded := by
  have hq : exceptIsOk (process_queue csrv queue) = false := by
    by_contra h
    have hok : exceptIsOk (process_queue csrv queue) = true := by
      cases hpq : process_queue csrv queue with
      | ok l => rfl
      | error e => rw [hpq] at h; exact absurd rfl h
    have := collectResult_ok_all _ queue hok (ident, raw) hmem
    have : exceptIsOk (upload_gif_to_gpu csrv raw) = true := by
      revert this
      cases hu : upload_gif_to_gpu csrv raw with
      | error e => intro hcontra; simp [exceptIsOk, hu] at hcontra
      | ok g => intro _; rfl
    rw [hfail] at this
    exact absurd this (by simp)
  refine ⟨hq, ?_⟩
  unfold update_gifs
  cases hpq : process_queue csrv queue with
  | error e => rfl
  | ok l => rw [hpq] at hq; exact absurd hq (by simp [exceptIsOk])

/-- Witness for C2 (amended) at the concrete failing batch of the
counterexample input shape (single failing item). -/
theorem c2_amended_witness :
    (("a", (⟨[([0], 1)], 1, 1⟩ : RawGif)) ∈
        ([("a", ⟨[([0], 1)], 1, 1⟩)] : List (String × RawGif))) ∧
      exceptIsOk (process_queue (fun d _ _ => if d = [0] then .error ("f") else .ok 1)
          [("a", ⟨[([0], 1)], 1, 1⟩)]) = false ∧
      update_gifs (fun d _ _ => if d = [0] then .error ("f") else .ok 1)
          [("a", none)] [("a", ⟨[([0], 1)], 1, 1⟩)] = [("a", none)] := by
  refine ⟨by decide, ?_⟩
  exact c2_amended_one_failure_aborts_batch
    (fun d _ _ => if d = [0] then .error ("f") else .ok 1)
    [("a", none)] [("a", ⟨[([0], 1)], 1, 1⟩)] "a" ⟨[([0], 1)], 1, 1⟩
    (by decide) (by decide)

/-- On any list of fetch results, keeping the `is_ok` half of a partition
and unwrapping equals collecting the `toOption` successes. -/
theorem partition_ok_unwrap (rs : List (Except String EmoteSet)) :
    (rs.partition exceptIsOk).1.map exceptUnwrap = rs.filterMap Except.toOption := by
  rw [List.partition_eq_filter_filter]
  induction rs with
  | nil => rfl
  | cons r rest ih =>
    cases r with
    | ok a => simpa [List.filter_cons, exceptIsOk, Except.toOption, exceptUnwrap] using ih
    | error e => simpa [List.filter_cons, exceptIsOk, Except.toOption] using ih

/-- CLAIM C9 — `download_emote_sets` fetches each requested id
independently (appending the implicit `"global"` id when `use_global` is
set) and returns exactly the successfully fetched pages in order: a
fetch/parse failure for one id only omits that id's page (after logging)
and never aborts the operation or drops another id's page. -/
theorem c9_download_collects_each_id_independently
    (fetch : String → Except String EmoteSet)
    (emote_set_ids : List String) (use_global : Bool) :
    download_emote_sets fetch emote_set_ids use_global =
      ((emote_set_ids ++ (if use_global then ["global"] else [])).map fetch).filterMap
        Except.toOption := by
  unfold download_emote_sets
  exact partition_ok_unwrap _

/-! ## Decode-path claims (C3 to C6)

The two decode paths are the legacy `src/chat_events.rs` one
(`message_from_raw_old`) and the `src/chat_events/mod.rs` one
(`Message.try_from_new`).  `u0old` and `u0new` below are all-null payloads
used as concrete inputs. -/

/-- All-null legacy payload union. -/
def u0old : MessageUnion := ⟨⟨none, none⟩, 0, 0, 0, 0, 0⟩

/-- All-null new-path payload union. -/
def u0new : RawUnionNew := ⟨0, none, none, none, 0, 0, none, none, none, 0, none⟩

/-- CLAIM C3 (counterexample) — a legacy-path message whose content bytes
are not valid UTF-8 (the single byte 0xFF): the conversion panics (the
`expect("Invalid UTF-8")` in `impl From<&RawMessage> for Message`,
modelled as `none`) instead of returning a recoverable decode failure. -/
theorem c3_counterexample :
    message_from_raw_old (fun _ => some 0) 0 ⟨some [255], 0, 1, u0old⟩ = none := by
  decide

/-- CLAIM C3 (amended) — invalid UTF-8 in a string field is never
silently truncated or substituted on either path, but only the
`chat_events/mod.rs` path turns it into a recoverable decode failure for
the whole event; the legacy `chat_events.rs` path panics on it (the
string reads go through `expect("Invalid UTF-8")`). -/
theorem c3_amended_invalid_utf8_errors_or_panics (b : List Nat)
    (hb : validUtf8 b = false) (conv conv2 : Nat → Option Nat) (now ts dt : Nat)
    (u : MessageUnion) (u2 : RawUnionNew) (h1 : u2.characterName = none)
    (h2 : u2.accountName = none) (h3 : u2.content = some b) :
    message_from_raw_old conv now ⟨some b, ts, 1, u⟩ = none ∧
      exceptIsOk (Message.try_from_new conv2 ⟨MessageType_Local, dt, u2⟩) = false := by
  constructor
  · simp [message_from_raw_old, decodeField, cstr_to_str, hb]
  · cases hc : conv2 dt with
    | none =>
      simp only [Message.try_from_new, hc]
      rfl
    | some t =>
      simp only [Message.try_from_new, hc, MessageSourceNew.from_raw, MessageType_Error,
        MessageType_Guild, MessageType_GuildMotD, MessageType_Local, union_to_generic,
        rawstr_to_string, cstr_to_str, hb, h1, h2, h3]
      rfl

/-- Witness for C3 (amended) at the byte string `[0xFF]`. -/
theorem c3_amended_witness :
    validUtf8 [255] = false ∧
      (message_from_raw_old (fun _ => some 0) 0 ⟨some [255], 7, 1, u0old⟩ = none ∧
        exceptIsOk (Message.try_from_new (fun _ => some 0)
          ⟨MessageType_Local, 7, { u0new with content := some [255] }⟩) = false) :=
  ⟨by decide,
   c3_amended_invalid_utf8_errors_or_panics [255] (by decide) (fun _ => some 0)
    (fun _ => some 0) 0 7 7 u0old { u0new with content := some [255] } rfl rfl rfl⟩

/-- CLAIM C4 (counterexample) — a new-path Local message whose
character-name pointer is null decodes to a `GenericMessage` whose
`character_name` is the empty string (the field is not optional and the
null case goes through `unwrap_or_default()`), indistinguishable from a
present-but-empty name; the claim required `None` on both paths. -/
theorem c4_counterexample :
    Message.try_from_new (fun _ => some 5) ⟨MessageType_Local, 0, u0new⟩ =
      .ok ⟨5, .Local ⟨0, [], none, []⟩⟩ := rfl

/-- CLAIM C4 (amended) — a null account-name pointer decodes to "absent"
(`None`) on both paths, and a null character-name pointer decodes to
`None` on the legacy `chat_events.rs` path; but on the
`chat_events/mod.rs` path the decoded `character_name` (like `content`)
is a plain string and a null pointer becomes the empty string. -/
theorem c4_amended_null_pointer_decoding (u2 : RawUnionNew) (p : RawPlayer)
    (h1 : u2.characterName = none) (h2 : u2.accountName = none)
    (h3 : u2.content = none) (h4 : p.character = none) (h5 : p.account = none) :
    union_to_generic u2 = .ok ⟨u2.account, [], none, []⟩ ∧
      player_from_raw p = some ⟨none, none⟩ := by
  constructor
  · simp only [union_to_generic, rawstr_to_string, h1, h2, h3]
    rfl
  · simp [player_from_raw, decodeField, h4, h5]

/-- Witness for C4 (amended) at the all-null payloads. -/
theorem c4_amended_witness :
    union_to_generic u0new = .ok ⟨0, [], none, []⟩ ∧
      player_from_raw ⟨none, none⟩ = some ⟨none, none⟩ :=
  c4_amended_null_pointer_decoding u0new ⟨none, none⟩ rfl rfl rfl rfl rfl

/-- CLAIM C5 (counterexample) — a new-path message with the unrecognized
discriminant 200 makes the decode of the whole event fail (there is no
`Error` channel kind on this path at all), contradicting the claim that
on either path an unknown discriminant yields the `Error` kind without
failing the decode. -/
theorem c5_counterexample :
    exceptIsOk (Message.try_from_new (fun _ => some 0) ⟨200, 0, u0new⟩) = false := by
  decide

/-- CLAIM C5 (amended) — an unknown channel-type discriminant never
panics on either path, but the paths diverge: the legacy
`chat_events.rs` path logs it, decodes it to `MessageSource::Error` and
the event decode still succeeds, while the `chat_events/mod.rs` path
returns a recoverable decode error for the whole event. -/
theorem c5_amended_unknown_discriminant (v : Nat) (hv : 13 < v)
    (conv conv2 : Nat → Option Nat) (now : Nat) (msgO : RawMessageOld)
    (hcontent : msgO.content = none) (htype : msgO.type = v)
    (msgN : RawMessageNew) (htype2 : msgN.type = v) :
    message_from_raw_old conv now msgO =
        some ⟨none, (conv msgO.timestamp).getD now, .Error⟩ ∧
      exceptIsOk (Message.try_from_new conv2 msgN) = false := by
  have e1 : v ≠ 1 := by omega
  have e2 : v ≠ 2 := by omega
  have e3 : v ≠ 3 := by omega
  have e4 : v ≠ 4 := by omega
  have e5 : v ≠ 5 := by omega
  have e6 : v ≠ 6 := by omega
  have e7 : v ≠ 7 := by omega
  have hmt : MessageType.fromU8 v = .Error := by
    simp [MessageType.fromU8, e1, e2, e3, e4, e5, e6, e7]
  have e0 : v ≠ 0 := by omega
  have e8 : v ≠ 8 := by omega
  have e9 : v ≠ 9 := by omega
  have e10 : v ≠ 10 := by omega
  have e11 : v ≠ 11 := by omega
  have e12 : v ≠ 12 := by omega
  have e13 : v ≠ 13 := by omega
  have hfr : MessageSourceNew.from_raw msgN = .error ("Unknown message type") := by
    simp [MessageSourceNew.from_raw, htype2, MessageType_Error, MessageType_Guild,
      MessageType_GuildMotD, MessageType_Local, MessageType_Map, MessageType_Party,
      MessageType_Squad, MessageType_SquadMessage, MessageType_SquadBroadcast,
      MessageType_TeamPvP, MessageType_TeamWvW, MessageType_Whisper, MessageType_Emote,
      MessageType_EmoteCustom, e0, e1, e2, e3, e4, e5, e6, e7, e8, e9, e10, e11, e12, e13]
  constructor
  · simp [message_from_raw_old, hcontent, decodeField, htype, hmt,
      MessageSourceOld.from_raw]
  · cases hc : conv2 msgN.dateTime with
    | none =>
      simp only [Message.try_from_new, hc]
      rfl
    | some t =>
      simp only [Message.try_from_new, hc, hfr]
      rfl

/-- Witness for C5 (amended) at the unknown discriminant 200. -/
theorem c5_amended_witness :
    13 < 200 ∧
      (message_from_raw_old (fun _ => some 7) 9 ⟨none, 0, 200, u0old⟩ =
          some ⟨none, 7, .Error⟩ ∧
        exceptIsOk (Message.try_from_new (fun _ => some 0) ⟨200, 0, u0new⟩) = false) :=
  ⟨by decide,
   c5_amended_unknown_discriminant 200 (by decide) (fun _ => some 7) (fun _ => some 0)
    9 ⟨none, 0, 200, u0old⟩ rfl rfl ⟨200, 0, u0new⟩ rfl⟩

/-- CLAIM C6 (counterexample) — a new-path message whose file-time
conversion fails (the conversion oracle returns `none`) makes the decode
of the whole event fail via the `?` in `TryFrom<RawMessage>`, instead of
substituting the current time as the claim requires of both paths. -/
theorem c6_counterexample :
    exceptIsOk (Message.try_from_new (fun _ => none)
      ⟨MessageType_Local, 0, u0new⟩) = false := by
  decide

/-- CLAIM C6 (amended) — a file-time conversion failure never panics, but
only the legacy `chat_events.rs` path substitutes the current time (and
logs) without failing the decode; the `chat_events/mod.rs` path
propagates the failure and the decode of the whole event fails. -/
theorem c6_amended_timestamp_failure (conv conv2 : Nat → Option Nat) (now : Nat)
    (msgO : RawMessageOld) (src : MessageSourceOld)
    (hconv : conv msgO.timestamp = none) (hcontent : msgO.content = none)
    (hsrc : MessageSourceOld.from_raw msgO.source (MessageType.fromU8 msgO.type) =
      some src)
    (msgN : RawMessageNew) (hconv2 : conv2 msgN.dateTime = none) :
    message_from_raw_old conv now msgO = some ⟨none, now, src⟩ ∧
      exceptIsOk (Message.try_from_new conv2 msgN) = false := by
  constructor
  · simp [message_from_raw_old, hcontent, decodeField, hsrc, hconv]
  · simp only [Message.try_from_new, hconv2]
    rfl

/-- Witness for C6 (amended) at a Team-type legacy message and an
all-null new-path message, with a conversion oracle that always fails. -/
theorem c6_amended_witness :
    message_from_raw_old (fun _ => none) 42 ⟨none, 0, 4, u0old⟩ =
        some ⟨none, 42, .Team ⟨⟨none, none⟩, 0⟩⟩ ∧
      exceptIsOk (Message.try_from_new (fun _ => none)
        ⟨MessageType_Local, 0, u0new⟩) = false :=
  c6_amended_timestamp_failure (fun _ => none) (fun _ => none) 42
    ⟨none, 0, 4, u0old⟩ (.Team ⟨⟨none, none⟩, 0⟩) rfl rfl (by decide)
    ⟨MessageType_Local, 0, u0new⟩ rfl

end NexusEmotes
